import Mathlib

/-!
Verification of the session-management subsystem of tiger_etl.

Shallow embedding of:
* `system/system/database_functions/sessions_management/sessions_management.py`
  (class `SessionManager` and its private helpers),
* `system/system/database_functions/sessions_management/validations.py`
  (the Pydantic models `SessionCreate`, `SessionSearch`, `SessionLogout`,
  `SessionCleanup` and their field validators),
* the slice of `system/system/database_connections/pg_db.py` (`PostgresDB.read`,
  `create`, `update`) that the session manager uses on the `user_sessions`
  table (equality-conditions filtering, insert-returning, update-returning),
* the token issue/verify round trip of
  `modules/authentication_management/session_manager.py`, whose serializer
  (`itsdangerous.URLSafeTimedSerializer`) is a third-party library and is
  modelled from the spec.

Conventions of the embedding:
* UTC datetimes are integers: microseconds since the epoch (Python datetimes
  are timezone-aware microsecond-precision values; all comparisons and
  subtractions on them coincide with integer comparison/subtraction).
* A table row is a `SessionRecord`; the store keeps rows in insertion order,
  which is the order `PostgresDB.read` (a plain SELECT with equality WHERE
  clauses and no ORDER BY) returns them in this embedding.
* Raised Python exceptions become `Except.error` values of `DbError`,
  matching the exception classes of `database_functions/exceptions.py`.
* String helpers model the CPython behaviour on ASCII data: `str.strip` is
  `String.trim`, `str.isalnum` is `Char.isAlphanum`.
-/

deriving instance DecidableEq for Except

namespace TigerETL

/-- Python `int((b - a).total_seconds())` where `b - a` is `diffMicros`
microseconds: `total_seconds` is `diffMicros / 10^6` (exact below float's
53-bit mantissa, i.e. for spans of a few centuries) and `int(...)` truncates
toward zero, which is `Int.tdiv`. -/
def pyDurationSeconds (diffMicros : Int) : Int :=
  diffMicros.tdiv 1000000

/-- Python `str.strip()` on ASCII data: drop leading and trailing
whitespace. (Implemented over the character list so that it evaluates by
kernel reduction; `String.trim` computes the same characters.) -/
def pyStrip (s : String) : String :=
  String.mk
    (((s.data.dropWhile Char.isWhitespace).reverse.dropWhile
      Char.isWhitespace).reverse)

/-- Helper for Python `str.split()` with no separator: accumulate the current
word (reversed) and emit words between whitespace runs. -/
def pyWordsAux : List Char → List Char → List String
  | acc, [] => if acc.isEmpty then [] else [String.mk acc.reverse]
  | acc, c :: cs =>
    if c.isWhitespace then
      if acc.isEmpty then pyWordsAux [] cs
      else String.mk acc.reverse :: pyWordsAux [] cs
    else pyWordsAux (c :: acc) cs

/-- Python `' '.join(s.split())`, followed by `cleaned if cleaned else None`
(validators `validate_user_agent` / `validate_device_info` in
`validations.py`): collapse whitespace runs to single spaces, and map a
whitespace-only result to `None`. -/
def pyCollapseWhitespace (s : String) : Option String :=
  let parts := pyWordsAux [] s.data
  if parts.isEmpty then none else some (String.intercalate " " parts)

/-- Characters accepted by `validate_session_id`: `c.isalnum() or c in '-_'`. -/
def isSessionIdChar (c : Char) : Bool :=
  c.isAlphanum || c == '-' || c == '_'

/-- Helper for Python `str.split(sep)` with a one-character separator:
pieces between separator occurrences, empties included. -/
def splitOnCharAux (sep : Char) : List Char → List Char → List String
  | acc, [] => [String.mk acc.reverse]
  | acc, c :: cs =>
    if c == sep then String.mk acc.reverse :: splitOnCharAux sep [] cs
    else splitOnCharAux sep (c :: acc) cs

/-- Python `str.split(sep)` for a one-character separator. -/
def pySplitOnChar (sep : Char) (s : String) : List String :=
  splitOnCharAux sep [] s.data

/-- Decimal value of a digit string. -/
def pyStrToNat (l : List Char) : Nat :=
  l.foldl (fun n c => n * 10 + (c.toNat - 48)) 0

/-- One dotted-quad part as accepted by `ipaddress.ip_address`: 1-3 decimal
digits, no leading zero (except the single digit `0`), value at most 255. -/
def isValidIPv4Octet (s : String) : Bool :=
  decide (0 < s.length) && decide (s.length ≤ 3) && s.data.all Char.isDigit &&
    (s == "0" || s.data.head?.getD '0' != '0') &&
    decide (pyStrToNat s.data ≤ 255)

/-- IPv4 acceptance of `ipaddress.ip_address`: exactly four valid octets. -/
def isValidIPv4 (s : String) : Bool :=
  let parts := pySplitOnChar '.' s
  parts.length == 4 && parts.all isValidIPv4Octet

/-- One IPv6 hextet: 1-4 hexadecimal digits. -/
def isValidIPv6Group (s : String) : Bool :=
  decide (0 < s.length) && decide (s.length ≤ 4) &&
    s.data.all (fun c => c.isDigit || (decide ('a' ≤ c) && decide (c ≤ 'f')) ||
      (decide ('A' ≤ c) && decide (c ≤ 'F')))

/-- First occurrence of `::`, with the characters before and after it. -/
def findDoubleColon : List Char → Option (List Char × List Char)
  | [] => none
  | ':' :: ':' :: rest => some ([], rest)
  | c :: rest => (findDoubleColon rest).map (fun p => (c :: p.1, p.2))

/-- IPv6 acceptance of `ipaddress.ip_address`, restricted to the plain forms:
eight colon-separated hextets, or at most one `::` compression standing for at
least one zero group. (The embedded-IPv4 tail form and zone indices are not
modelled; no claim depends on them.) -/
def isValidIPv6 (s : String) : Bool :=
  match findDoubleColon s.data with
  | none =>
    let gs := pySplitOnChar ':' s
    gs.length == 8 && gs.all isValidIPv6Group
  | some (before, after) =>
    if (findDoubleColon after).isSome then false
    else
      let lg := if before.isEmpty then [] else splitOnCharAux ':' [] before
      let rg := if after.isEmpty then [] else splitOnCharAux ':' [] after
      decide (lg.length + rg.length ≤ 7) && lg.all isValidIPv6Group &&
        rg.all isValidIPv6Group

/-- Acceptance of `ipaddress.ip_address(v)` on an already-stripped string. -/
def pyIsIpAddress (s : String) : Bool :=
  isValidIPv4 s || isValidIPv6 s

/-- One row of the `user_sessions` table (model `UserSession` in
`models/sessions_management/model.py`). Nullable columns are `Option`;
`login_datetime` and `last_activity` are NOT NULL in the schema but the
manager code defensively handles their absence, so they stay `Option` here. -/
structure SessionRecord where
  id : Int
  user_id : Int
  session_id : String
  ip_address : Option String
  user_agent : Option String
  device_info : Option String
  login_datetime : Option Int
  logout_datetime : Option Int
  is_active : Bool
  last_activity : Option Int
  session_duration : Option Int
deriving Repr, DecidableEq

/-- The `user_sessions` table: rows in insertion order plus the identity
counter for the auto-increment primary key. -/
structure Store where
  rows : List SessionRecord
  nextId : Int
deriving Repr, DecidableEq

/-- A flat equality-conditions dictionary as passed to `PostgresDB.read` /
`update` / `delete`; only the keys the session manager actually uses. -/
structure Criteria where
  id : Option Int := none
  user_id : Option Int := none
  session_id : Option String := none
  ip_address : Option String := none
  is_active : Option Bool := none
deriving Repr, DecidableEq

/-- SQL `WHERE col = value` conjunction built by the loop
`for key, value in conditions.items(): stmt.where(table.c[key] == value)`. -/
def matchesCriteria (c : Criteria) (r : SessionRecord) : Bool :=
  (match c.id with | none => true | some v => r.id == v) &&
  (match c.user_id with | none => true | some v => r.user_id == v) &&
  (match c.session_id with | none => true | some v => r.session_id == v) &&
  (match c.ip_address with | none => true | some v => r.ip_address == some v) &&
  (match c.is_active with | none => true | some v => r.is_active == v)

/-- `PostgresDB.read(table, conditions)`: SELECT with equality filters,
rows in store order. -/
def dbRead (st : Store) (c : Criteria) : List SessionRecord :=
  st.rows.filter (fun r => matchesCriteria c r)

/-- The column assignments the session manager passes to `PostgresDB.update`
(`none` = key absent from the `data` dict, so the column is untouched). -/
structure UpdateData where
  logout_datetime : Option Int := none
  is_active : Option Bool := none
  last_activity : Option Int := none
  session_duration : Option Int := none
deriving Repr, DecidableEq

/-- Apply an UPDATE's SET clause to one row. -/
def applyUpdate (u : UpdateData) (r : SessionRecord) : SessionRecord :=
  { r with
    logout_datetime := (match u.logout_datetime with
      | none => r.logout_datetime
      | some t => some t)
    is_active := (match u.is_active with
      | none => r.is_active
      | some b => b)
    last_activity := (match u.last_activity with
      | none => r.last_activity
      | some t => some t)
    session_duration := (match u.session_duration with
      | none => r.session_duration
      | some n => some n) }

/-- `PostgresDB.update(table, data, conditions)`: UPDATE ... RETURNING.
Returns the matching rows after the update, and the new store. -/
def dbUpdate (st : Store) (u : UpdateData) (c : Criteria) :
    List SessionRecord × Store :=
  ((st.rows.filter (fun r => matchesCriteria c r)).map (applyUpdate u),
   { st with rows :=
      (st.rows.map (fun r => if matchesCriteria c r then applyUpdate u r else r)) })

/-- The `processed_data` dict handed to `PostgresDB.create` by
`create_session` after `_prepare_session_data_for_creation`. -/
structure InsertData where
  user_id : Int
  session_id : String
  ip_address : Option String
  user_agent : Option String
  device_info : Option String
  login_datetime : Int
  last_activity : Int
  is_active : Bool
deriving Repr, DecidableEq

/-- `PostgresDB.create(table, data)`: INSERT ... RETURNING. Columns absent
from the dict take their schema defaults (`logout_datetime` and
`session_duration` are NULL); the id comes from the identity counter. -/
def dbCreate (st : Store) (d : InsertData) : SessionRecord × Store :=
  let r : SessionRecord :=
    { id := st.nextId
      user_id := d.user_id
      session_id := d.session_id
      ip_address := d.ip_address
      user_agent := d.user_agent
      device_info := d.device_info
      login_datetime := some d.login_datetime
      logout_datetime := none
      is_active := d.is_active
      last_activity := some d.last_activity
      session_duration := none }
  (r, { rows := st.rows ++ [r], nextId := st.nextId + 1 })

/-- The exception classes of `database_functions/exceptions.py` raised by the
session manager. -/
inductive DbError where
  | sessionNotFound
  | sessionCreateError
  | sessionUpdateError
  | sessionDeleteError
  | sessionValidationError
  | sessionAlreadyExists
deriving Repr, DecidableEq

/-- One call into the `PostgresDB` store layer, for tracing which operations
reach the store. -/
inductive DbOp where
  | read
  | create
  | update
  | delete
deriving Repr, DecidableEq

/-- The keyword arguments accepted by the Pydantic model `SessionCreate`
(`validations.py`): `user_id` and `session_id` are required, the rest are
optional (`none` = not supplied, so `dict(exclude_unset=True)` omits them). -/
structure CreateInput where
  user_id : Int
  session_id : String
  ip_address : Option String := none
  user_agent : Option String := none
  device_info : Option String := none
  login_datetime : Option Int := none
  is_active : Option Bool := none
deriving Repr, DecidableEq

/-- The `session_id` field of `SessionBase` / `SessionLogout` /
`SessionActivityUpdate`: `Field(min_length=1, max_length=255)` then the
validator `validate_session_id` (strip, reject empty, accept only
alphanumerics, hyphen, underscore; the stripped value is kept). -/
def validSessionIdField (raw : String) : Option String :=
  if raw.length < 1 || 255 < raw.length then none
  else
    let t := pyStrip raw
    if t.isEmpty then none
    else if t.data.all isSessionIdChar then some t
    else none

/-- The `ip_address` field: `Field(max_length=45)` then `validate_ip_address`
(a provided value whose strip is non-empty must parse as an IP address and is
replaced by its strip; a `None` or whitespace-only value passes unchanged).
The validator's `except AddressValueError` never fires — `ip_address()`
raises a plain `ValueError` — but that `ValueError` still surfaces as a
pydantic validation failure, so acceptance is as modelled here. -/
def validIpField (v : Option String) : Option (Option String) :=
  match v with
  | none => some none
  | some s =>
    if 45 < s.length then none
    else if (pyStrip s).isEmpty then some (some s)
    else if pyIsIpAddress (pyStrip s) then some (some (pyStrip s))
    else none

/-- The `user_agent` / `device_info` fields: `Field(max_length=n)` then
whitespace normalization mapping a blank result to `None`. -/
def validTextField (maxLen : Nat) (v : Option String) : Option (Option String) :=
  match v with
  | none => some none
  | some s => if maxLen < s.length then none else some (pyCollapseWhitespace s)

/-- Validation performed by `SessionCreate(**session_data)`: `user_id` must be
positive (`Field(gt=0)`), and the per-field checks above; on success the
normalized payload is returned (pydantic reports a `ValidationError`, a
`ValueError` subclass, on the first set of failures — which fields fail does
not matter for the embedding, only whether any does). -/
def validateSessionCreate (inp : CreateInput) : Option CreateInput :=
  if inp.user_id ≤ 0 then none
  else
    match validSessionIdField inp.session_id with
    | none => none
    | some sid =>
      match validIpField inp.ip_address with
      | none => none
      | some ip =>
        match validTextField 1000 inp.user_agent with
        | none => none
        | some ua =>
          match validTextField 500 inp.device_info with
          | none => none
          | some dev =>
            some { inp with
              session_id := sid, ip_address := ip,
              user_agent := ua, device_info := dev }

/-- `SessionManager._prepare_session_data_for_creation`: default
`login_datetime` and `last_activity` to the current time (the `SessionCreate`
model has no `last_activity` field, so that key is never preset) and
`is_active` to `True` when the caller did not supply them. -/
def prepareSessionDataForCreation (d : CreateInput) (now : Int) : InsertData :=
  { user_id := d.user_id
    session_id := d.session_id
    ip_address := d.ip_address
    user_agent := d.user_agent
    device_info := d.device_info
    login_datetime := d.login_datetime.getD now
    last_activity := now
    is_active := d.is_active.getD true }

/-- `SessionManager.create_session`: validate, check for an existing row with
the same `session_id`, prepare defaults, insert. Returns the raised
exception or the created row, the resulting store, and the trace of store
operations performed. -/
def createSession (inp : CreateInput) (now : Int) (st : Store) :
    Except DbError SessionRecord × Store × List DbOp :=
  match validateSessionCreate inp with
  | none => (.error .sessionValidationError, st, [])
  | some v =>
    let existing := dbRead st { session_id := some v.session_id }
    if existing.isEmpty then
      let created := dbCreate st (prepareSessionDataForCreation v now)
      (.ok created.1, created.2, [.read, .create])
    else
      (.error .sessionAlreadyExists, st, [.read])

/-- `SessionManager.get_session_by_session_id`: reject an empty string
(`SessionValidationError`), then SELECT by `session_id`; a miss returns
`None`, not an exception. -/
def getSessionBySessionId (sessionId : String) (st : Store) :
    Except DbError (Option SessionRecord) :=
  if sessionId.isEmpty then .error .sessionValidationError
  else
    match dbRead st { session_id := some sessionId } with
    | [] => .ok none
    | r :: _ => .ok (some r)

/-- `SessionManager.get_session_by_id`: `_validate_session_id_int` requires a
positive integer, then SELECT by primary key; a miss raises
`SessionNotFoundError`. -/
def getSessionById (sessionId : Int) (st : Store) :
    Except DbError SessionRecord :=
  if sessionId ≤ 0 then .error .sessionValidationError
  else
    match dbRead st { id := some sessionId } with
    | [] => .error .sessionNotFound
    | r :: _ => .ok r

/-- Key used by `sessions_list.sort(key=lambda x: x.get('login_datetime', ''),
reverse=True)`. Every row the manager creates carries a `login_datetime`
(NOT NULL column with a default); on rows where it were NULL the Python sort
would raise, so theorems about the sorted results assume all rows carry it,
and the `getD` default is never reached there. -/
def loginSortKey (r : SessionRecord) : Int :=
  r.login_datetime.getD 0

/-- Descending-by-login order: `a` may stay before `b`. Reflexive, so a
stable sort under it keeps the original order of equal keys. -/
def loginDescRel (a b : SessionRecord) : Prop :=
  loginSortKey b ≤ loginSortKey a

instance : DecidableRel loginDescRel :=
  fun _ _ => Int.decLe _ _

instance : IsTotal SessionRecord loginDescRel :=
  ⟨fun a b => Int.le_total (loginSortKey b) (loginSortKey a)⟩

instance : IsTrans SessionRecord loginDescRel :=
  ⟨fun _ _ _ h1 h2 => le_trans h2 h1⟩

/-- Python `list.sort(key=..., reverse=True)`: a stable descending sort.
Stable sorts under a fixed total preorder agree on every input, so the
structurally recursive insertion sort computes exactly what CPython's stable
sort returns. -/
def sortByLoginDesc (l : List SessionRecord) : List SessionRecord :=
  List.insertionSort loginDescRel l

/-- `SessionManager.get_sessions_by_user`: validate the user id, SELECT by
`user_id`, truncate to `limit` rows in store order (`sessions[:limit]`), and
only then sort by `login_datetime` descending. -/
def getSessionsByUser (userId : Int) (limit : Nat) (st : Store) :
    Except DbError (List SessionRecord) :=
  if userId ≤ 0 then .error .sessionValidationError
  else .ok (sortByLoginDesc ((dbRead st { user_id := some userId }).take limit))

/-- The `update_data` dict built by `logout_session` from the first active
match `s0`: logout time, deactivation, activity stamp, and the duration
when `s0` carries a `login_datetime`. -/
def logoutUpdateData (now : Int) (s0 : SessionRecord) : UpdateData :=
  { logout_datetime := some now
    is_active := some false
    last_activity := some now
    session_duration := (match s0.login_datetime with
      | some l => some (pyDurationSeconds (now - l))
      | none => none) }

/-- `SessionManager.logout_session`: validate the session id
(`SessionLogout`), SELECT the active row, build the update dict, then UPDATE
every row with that `session_id`. -/
def logoutSession (sessionId : String) (now : Int) (st : Store) :
    Except DbError SessionRecord × Store :=
  match validSessionIdField sessionId with
  | none => (.error .sessionValidationError, st)
  | some vsid =>
    match dbRead st { session_id := some vsid, is_active := some true } with
    | [] => (.error .sessionNotFound, st)
    | s0 :: _ =>
      match dbUpdate st (logoutUpdateData now s0) { session_id := some vsid } with
      | ([], st') => (.error .sessionUpdateError, st')
      | (r :: _, st') => (.ok r, st')

/-- The keyword arguments accepted by the Pydantic model `SessionSearch`.
`limit` and `offset` are naturals (`Field(ge=...)` rejects negatives);
`none` means not supplied, so the defaults 100 and 0 apply. -/
structure SearchInput where
  user_id : Option Int := none
  session_id : Option String := none
  ip_address : Option String := none
  is_active : Option Bool := none
  login_datetime_from : Option Int := none
  login_datetime_to : Option Int := none
  last_activity_from : Option Int := none
  last_activity_to : Option Int := none
  limit : Option Nat := none
  offset : Option Nat := none
deriving Repr, DecidableEq

/-- The `session_id` field of `SessionSearch`: length bounds, then a validator
that only strips and rejects blank values (no character-set check here). -/
def validSearchSessionId (v : Option String) : Option (Option String) :=
  match v with
  | none => some none
  | some s =>
    if s.length < 1 || 255 < s.length then none
    else if (pyStrip s).isEmpty then none
    else some (some (pyStrip s))

/-- Validation performed by `SessionSearch(**search_criteria)`: positive
`user_id`, well-formed `session_id`/`ip_address`, each `*_to` bound strictly
after the matching `*_from` bound when both are given, `limit` in `[1,1000]`. -/
def validateSessionSearch (inp : SearchInput) : Option SearchInput :=
  if (match inp.user_id with | none => false | some u => u ≤ 0) then none
  else
    match validSearchSessionId inp.session_id with
    | none => none
    | some sid =>
      match validIpField inp.ip_address with
      | none => none
      | some ip =>
        if (match inp.login_datetime_from, inp.login_datetime_to with
            | some f, some t => decide (t ≤ f)
            | _, _ => false) then none
        else if (match inp.last_activity_from, inp.last_activity_to with
            | some f, some t => decide (t ≤ f)
            | _, _ => false) then none
        else if (match inp.limit with
            | none => false
            | some l => l < 1 || 1000 < l) then none
        else some { inp with session_id := sid, ip_address := ip }

/-- `SessionManager._filter_by_login_datetime`: keep a row only if it carries
a `login_datetime` that is not before the `from` bound and not after the `to`
bound (both comparisons strict in the source, so both bounds are kept
inclusive). -/
def filterByLoginDatetime (sessions : List SessionRecord)
    (fromDt toDt : Option Int) : List SessionRecord :=
  if fromDt.isNone && toDt.isNone then sessions
  else
    sessions.filter (fun s =>
      match s.login_datetime with
      | none => false
      | some d =>
        !(match fromDt with | some f => decide (d < f) | none => false) &&
        !(match toDt with | some t => decide (t < d) | none => false))

/-- `SessionManager._filter_by_last_activity`: same shape over
`last_activity`. -/
def filterByLastActivity (sessions : List SessionRecord)
    (fromDt toDt : Option Int) : List SessionRecord :=
  if fromDt.isNone && toDt.isNone then sessions
  else
    sessions.filter (fun s =>
      match s.last_activity with
      | none => false
      | some d =>
        !(match fromDt with | some f => decide (d < f) | none => false) &&
        !(match toDt with | some t => decide (t < d) | none => false))

/-- The `db_criteria` dict that `search_sessions` builds from the validated
input (each key added only when the corresponding field is not `None`). -/
def searchCriteria (v : SearchInput) : Criteria :=
  { user_id := v.user_id
    session_id := v.session_id
    ip_address := v.ip_address
    is_active := v.is_active }

/-- The rows `search_sessions` has after its SELECT and the two conditional
in-memory datetime range filters (`sessions_list` just before the sort). -/
def searchFilteredRows (v : SearchInput) (st : Store) : List SessionRecord :=
  let l0 := dbRead st (searchCriteria v)
  let l1 :=
    if v.login_datetime_from.isSome || v.login_datetime_to.isSome then
      filterByLoginDatetime l0 v.login_datetime_from v.login_datetime_to
    else l0
  if v.last_activity_from.isSome || v.last_activity_to.isSome then
    filterByLastActivity l1 v.last_activity_from v.last_activity_to
  else l1

/-- `SessionManager.search_sessions`: validate, SELECT with the equality
criteria, apply the in-memory datetime range filters, sort by
`login_datetime` descending, then paginate with
`sessions_list[offset : offset + limit]`. -/
def searchSessions (inp : SearchInput) (st : Store) :
    Except DbError (List SessionRecord) :=
  match validateSessionSearch inp with
  | none => .error .sessionValidationError
  | some v =>
    .ok (((sortByLoginDesc (searchFilteredRows v st)).drop
      (v.offset.getD 0)).take (v.limit.getD 100))

/-- `SessionManager._find_expired_sessions` (dead code in the current build,
see `cleanupExpiredSessions`): ids of the given rows whose `last_activity`
exists and is strictly before the cutoff. -/
def findExpiredSessions (activeSessions : List SessionRecord) (cutoff : Int) :
    List Int :=
  activeSessions.filterMap (fun r =>
    match r.last_activity with
    | some la => if la < cutoff then some r.id else none
    | none => none)

/-- `SessionManager._deactivate_expired_sessions` (dead code in the current
build): per-id UPDATE setting `is_active=False` and `logout_datetime`,
counting the ids whose update returned rows. -/
def deactivateExpiredSessions (st : Store) (expired : List Int)
    (logoutTime : Int) : Nat × Store :=
  expired.foldl
    (fun acc i =>
      let step := dbUpdate acc.2
        { is_active := some false, logout_datetime := some logoutTime }
        { id := some i }
      (if step.1.isEmpty then acc.1 else acc.1 + 1, step.2))
    (0, st)

/-- `SessionManager.cleanup_expired_sessions`. The source validates
`hours_inactive` with `SessionCleanup` (`ge=1, le=8760`), then computes the
cutoff as `datetime.now(timezone.utc) - timezone.timedelta(hours=...)`. The
module imports only `datetime` and `timezone` from the `datetime` module, and
the class `datetime.timezone` has no attribute `timedelta`, so this line
raises `AttributeError` on every call — before the `db.read` that would scan
the table. The generic `except Exception` handler turns it into
`SessionDeleteError`. The sweep below it (`_find_expired_sessions` /
`_deactivate_expired_sessions`, embedded above) is therefore unreachable. -/
def cleanupExpiredSessions (hoursInactive : Int) (st : Store) :
    Except DbError Nat × Store :=
  if hoursInactive < 1 || 8760 < hoursInactive then
    (.error .sessionValidationError, st)
  else
    (.error .sessionDeleteError, st)

/-- Token errors of the token codec (`itsdangerous.BadSignature` and its
subclass `SignatureExpired` both surface as one generic failure). -/
inductive TokenError where
  | invalidToken
deriving Repr, DecidableEq

/-- Modelled from the spec: the token produced by `TokenCodec.issue`
(`serializer.dumps` of `itsdangerous.URLSafeTimedSerializer`, a third-party
library not under `src/`). Per §4.1 a token embeds the payload, the issuance
timestamp, and a signature, which is deterministic given the secret key; the
signature is modelled symbolically as the signed data together with the key. -/
structure SignedToken where
  payload : String
  issuedAt : Int
  sig : String × String × Int
deriving Repr, DecidableEq

/-- Modelled from the spec: `TokenCodec.issue(x)` at time `t` under `key`
(`FastAPISessionManager.create_user_session` line
`session_token = self.serializer.dumps(session_id)`). Always succeeds. -/
def tokenIssue (key : String) (x : String) (t : Int) : SignedToken :=
  { payload := x, issuedAt := t, sig := (key, x, t) }

/-- Modelled from the spec: `TokenCodec.verify(token, max_age)` at time `now`
(`FastAPISessionManager.get_user_session` line `self.serializer.loads(
session_token, max_age=self.session_timeout)`): reject a signature that does
not match the key and signed data, reject a token older than `maxAge`
seconds, otherwise return the embedded payload. -/
def tokenVerify (key : String) (tok : SignedToken) (now maxAge : Int) :
    Except TokenError String :=
  if tok.sig ≠ (key, tok.payload, tok.issuedAt) then .error .invalidToken
  else if maxAge < now - tok.issuedAt then .error .invalidToken
  else .ok tok.payload

/-! Concrete fixtures used by counterexamples and witnesses. -/

/-- The empty `user_sessions` table. -/
def emptyStore : Store :=
  { rows := [], nextId := 1 }

/-- An active session of user 1 that logged in at t = 100 s. -/
def rAlpha : SessionRecord :=
  { id := 1, user_id := 1, session_id := "alpha", ip_address := none
    user_agent := none, device_info := none
    login_datetime := some 100000000, logout_datetime := none
    is_active := true, last_activity := some 100000000
    session_duration := none }

/-- An active session of user 1 that logged in later, at t = 200 s. -/
def rBeta : SessionRecord :=
  { id := 2, user_id := 1, session_id := "beta", ip_address := none
    user_agent := none, device_info := none
    login_datetime := some 200000000, logout_datetime := none
    is_active := true, last_activity := some 200000000
    session_duration := none }

/-- A store holding `rAlpha` then `rBeta`, in insertion order. -/
def stTwo : Store :=
  { rows := [rAlpha, rBeta], nextId := 3 }

/-! Small facts about criteria matching. -/

theorem matchesCriteria_sid (vsid : String) (r : SessionRecord) :
    matchesCriteria { session_id := some vsid } r = (r.session_id == vsid) := by
  simp [matchesCriteria]

theorem matchesCriteria_sid_active (vsid : String) (r : SessionRecord) :
    matchesCriteria { session_id := some vsid, is_active := some true } r
      = (r.session_id == vsid && r.is_active) := by
  simp [matchesCriteria]

/-- Supporting fact for the C1 classification: the sweep helper the cutoff
crash makes unreachable would select exactly the rows whose `last_activity`
is strictly older than the cutoff — the behaviour the claim describes. -/
theorem mem_findExpiredSessions (rows : List SessionRecord) (cutoff i : Int) :
    i ∈ findExpiredSessions rows cutoff ↔
    ∃ r ∈ rows, r.id = i ∧ ∃ la, r.last_activity = some la ∧ la < cutoff := by
  simp only [findExpiredSessions, List.mem_filterMap]
  constructor
  · rintro ⟨r, hr, hm⟩
    cases hla : r.last_activity with
    | none => rw [hla] at hm; simp at hm
    | some la =>
      rw [hla] at hm
      dsimp only at hm
      by_cases hlt : la < cutoff
      · rw [if_pos hlt] at hm
        exact ⟨r, hr, Option.some.inj hm, la, hla, hlt⟩
      · rw [if_neg hlt] at hm
        simp at hm
  · rintro ⟨r, hr, rfl, la, hla, hlt⟩
    refine ⟨r, hr, ?_⟩
    rw [hla]
    dsimp only
    rw [if_pos hlt]

/-- C1. The claim states that for every valid hours value `h`,
`cleanup_expired_sessions(h)` returns a count and deactivates exactly the
stale active records. The code cannot do this: the cutoff line evaluates
`timezone.timedelta`, which raises `AttributeError` (`timedelta` is never
imported), so for every store and every hours value the call raises —
`SessionDeleteError` for valid hours, `SessionValidationError` for invalid
ones — and the store is never modified. In particular it fails on the
concrete store holding a session stale for far longer than 24 hours. -/
theorem cleanup_expired_sessions_always_fails :
    (∀ (h : Int) (st : Store),
      cleanupExpiredSessions h st = (Except.error DbError.sessionValidationError, st) ∨
      cleanupExpiredSessions h st = (Except.error DbError.sessionDeleteError, st)) ∧
    cleanupExpiredSessions 24 stTwo = (Except.error DbError.sessionDeleteError, stTwo) := by
  constructor
  · intro h st
    unfold cleanupExpiredSessions
    split
    · exact Or.inl rfl
    · exact Or.inr rfl
  · rfl

/-- C2 counterexample: with no record stored under the token
`missing-token`, `get_session_by_session_id` returns a successful `None`
result, not the `NotFound` failure the claim states. -/
theorem get_session_by_session_id_missing_cex :
    getSessionBySessionId "missing-token" emptyStore = Except.ok none ∧
    getSessionBySessionId "missing-token" emptyStore
      ≠ Except.error DbError.sessionNotFound := by
  constructor
  · rfl
  · decide

/-- C2 (amended): for every non-empty `session_id` with no matching record,
the token-based lookup returns a successful `None` result (no error is
raised); it does not fail with `NotFound`. -/
theorem get_session_by_session_id_absent_returns_none
    (sid : String) (st : Store)
    (hne : sid.isEmpty = false)
    (habs : ∀ r ∈ st.rows, r.session_id ≠ sid) :
    getSessionBySessionId sid st = Except.ok none := by
  unfold getSessionBySessionId
  rw [hne]
  have hread : dbRead st { session_id := some sid } = [] := by
    unfold dbRead
    refine List.filter_eq_nil_iff.mpr ?_
    intro r hr
    rw [matchesCriteria_sid]
    simpa using habs r hr
  rw [hread]
  simp

/-- C2 witness: the amended statement at a concrete store and token. -/
theorem get_session_by_session_id_absent_returns_none_witness :
    ("zzz" : String).isEmpty = false ∧
    (∀ r ∈ stTwo.rows, r.session_id ≠ "zzz") ∧
    getSessionBySessionId "zzz" stTwo = Except.ok none :=
  ⟨by decide, by decide,
    get_session_by_session_id_absent_returns_none "zzz" stTwo (by decide) (by decide)⟩

/-- C8: verifying a token issued for a non-empty session identifier under
the same secret key recovers exactly that identifier, provided fewer than
`maxAge` seconds have elapsed since issuance. (The serializer is
spec-modelled; see `tokenIssue` / `tokenVerify`.) -/
theorem token_issue_verify_roundtrip
    (key x : String) (t now maxAge : Int)
    (_hx : x ≠ "")
    (hfresh : now - t < maxAge) :
    tokenVerify key (tokenIssue key x t) now maxAge = Except.ok x := by
  unfold tokenVerify tokenIssue
  have h1 : ¬ maxAge < now - t := by omega
  simp [h1]

/-- C8 witness: the round trip at a concrete key, identifier and clock. -/
theorem token_issue_verify_roundtrip_witness :
    ("sess-1" : String) ≠ "" ∧ (100 : Int) - 40 < 3600 ∧
    tokenVerify "k" (tokenIssue "k" "sess-1" 40) 100 3600 = Except.ok "sess-1" :=
  ⟨by decide, by decide,
    token_issue_verify_roundtrip "k" "sess-1" 40 100 3600 (by decide) (by decide)⟩

theorem validSessionIdField_not_empty {raw sid : String}
    (h : validSessionIdField raw = some sid) : sid.isEmpty = false := by
  simp only [validSessionIdField] at h
  split at h
  · simp at h
  · split at h
    · simp at h
    · split at h
      · injection h with h
        subst h
        simp_all
      · simp at h

theorem validateSessionCreate_some {inp v : CreateInput}
    (h : validateSessionCreate inp = some v) :
    v.is_active = inp.is_active ∧ v.user_id = inp.user_id ∧
    v.login_datetime = inp.login_datetime ∧ v.session_id.isEmpty = false := by
  simp only [validateSessionCreate] at h
  split at h
  · simp at h
  · cases hsid : validSessionIdField inp.session_id with
    | none => rw [hsid] at h; simp at h
    | some sid =>
      rw [hsid] at h
      cases hip : validIpField inp.ip_address with
      | none => rw [hip] at h; simp at h
      | some ip =>
        rw [hip] at h
        cases hua : validTextField 1000 inp.user_agent with
        | none => rw [hua] at h; simp at h
        | some ua =>
          rw [hua] at h
          cases hdev : validTextField 500 inp.device_info with
          | none => rw [hdev] at h; simp at h
          | some dev =>
            rw [hdev] at h
            injection h with h
            subst h
            exact ⟨rfl, rfl, rfl, validSessionIdField_not_empty hsid⟩

/-- C3 counterexample: the input that supplies `is_active=False` passes
validation, so `create_session` accepts it without error, yet the record
read back under the same `session_id` carries `is_active=false` — the claim
states it must be `true` for every accepted input. -/
theorem create_session_inactive_cex :
    (createSession { user_id := 1, session_id := "sess-c3", is_active := some false }
        1000 emptyStore).1.isOk = true ∧
    (getSessionBySessionId "sess-c3"
        (createSession { user_id := 1, session_id := "sess-c3", is_active := some false }
          1000 emptyStore).2.1).map
        (fun o => o.map (fun q => (q.is_active, q.logout_datetime)))
      = Except.ok (some (false, none)) := by
  constructor
  · decide
  · decide

/-- C3 (amended): for every input that `create_session` accepts without
error, an immediate `get_session_by_session_id` with the created record's
`session_id` returns a record with `logout_datetime=null` and with
`is_active` equal to the supplied `is_active` flag, which defaults to `true`
when the input does not set it (supplying `is_active=False` yields an
inactive record). -/
theorem create_session_then_get
    (inp : CreateInput) (now : Int) (st : Store) (r : SessionRecord)
    (h : (createSession inp now st).1 = Except.ok r) :
    (getSessionBySessionId r.session_id (createSession inp now st).2.1).map
        (fun o => o.map (fun q => (q.is_active, q.logout_datetime)))
      = Except.ok (some (inp.is_active.getD true, none)) := by
  simp only [createSession] at h ⊢
  cases hv : validateSessionCreate inp with
  | none => rw [hv] at h; simp at h
  | some v =>
    rw [hv] at h
    dsimp only at h ⊢
    obtain ⟨hact, _, _, hemp⟩ := validateSessionCreate_some hv
    by_cases hex : (dbRead st { session_id := some v.session_id }).isEmpty = true
    · rw [if_pos hex] at h ⊢
      dsimp only at h ⊢
      simp only [Except.ok.injEq] at h
      subst h
      have hnil : st.rows.filter (fun q => q.session_id == v.session_id) = [] := by
        have h2 := List.isEmpty_iff.mp hex
        simpa [dbRead, matchesCriteria_sid] using h2
      simp [getSessionBySessionId, dbRead, dbCreate, prepareSessionDataForCreation,
        List.filter_append, hnil, matchesCriteria_sid, hemp, hact, Except.map]
    · rw [if_neg hex] at h
      simp at h

/-- The record that `create_session` inserts for the witness input below. -/
def rWitC3 : SessionRecord :=
  { id := 1, user_id := 1, session_id := "sess-a1", ip_address := none
    user_agent := none, device_info := none
    login_datetime := some 1000, logout_datetime := none
    is_active := true, last_activity := some 1000
    session_duration := none }

/-- C3 witness: the amended statement at a concrete accepted input. -/
theorem create_session_then_get_witness :
    (createSession { user_id := 1, session_id := "sess-a1" } 1000 emptyStore).1
      = Except.ok rWitC3 ∧
    (getSessionBySessionId rWitC3.session_id
        (createSession { user_id := 1, session_id := "sess-a1" } 1000 emptyStore).2.1).map
        (fun o => o.map (fun q => (q.is_active, q.logout_datetime)))
      = Except.ok (some (true, none)) :=
  ⟨by decide,
    create_session_then_get { user_id := 1, session_id := "sess-a1" } 1000 emptyStore
      rWitC3 (by decide)⟩

/-- An `ip_address` input is malformed when its strip is non-empty and is not
accepted by `ipaddress.ip_address` (absent and whitespace-only values pass
validation unchanged). -/
def ipMalformed : Option String → Bool
  | none => false
  | some s => !(pyStrip s).isEmpty && !pyIsIpAddress (pyStrip s)

theorem validSessionIdField_of_strip_empty {raw : String}
    (h : (pyStrip raw).isEmpty = true) : validSessionIdField raw = none := by
  simp [validSessionIdField, h]

theorem validIpField_of_malformed {v : Option String}
    (h : ipMalformed v = true) : validIpField v = none := by
  cases v with
  | none => simp [ipMalformed] at h
  | some s =>
    simp only [ipMalformed, Bool.and_eq_true, Bool.not_eq_true'] at h
    obtain ⟨h1, h2⟩ := h
    simp only [validIpField]
    split
    · rfl
    · rw [if_neg (by simp [h1]), if_neg (by simp [h2])]

theorem validateSessionCreate_none_of_bad {inp : CreateInput}
    (hbad : inp.user_id ≤ 0 ∨ (pyStrip inp.session_id).isEmpty = true ∨
      ipMalformed inp.ip_address = true) :
    validateSessionCreate inp = none := by
  simp only [validateSessionCreate]
  rcases hbad with h | h | h
  · rw [if_pos h]
  · rw [validSessionIdField_of_strip_empty h]
    split
    · rfl
    · rfl
  · rw [validIpField_of_malformed h]
    split
    · rfl
    · cases validSessionIdField inp.session_id
      · rfl
      · rfl

/-- C7: every input rejected by validation — non-positive `user_id`, blank
`session_id`, or malformed `ip_address` — makes `create_session` raise
`SessionValidationError` with an empty store-operation trace (no read,
create, update or delete reaches the store) and the store unchanged. -/
theorem create_session_validation_no_store_access
    (inp : CreateInput) (now : Int) (st : Store)
    (hbad : inp.user_id ≤ 0 ∨ (pyStrip inp.session_id).isEmpty = true ∨
      ipMalformed inp.ip_address = true) :
    createSession inp now st = (Except.error DbError.sessionValidationError, st, []) := by
  have hv := validateSessionCreate_none_of_bad hbad
  simp only [createSession, hv]

/-- C7 witness: the statement at the concrete invalid input `user_id = 0`. -/
theorem create_session_validation_no_store_access_witness :
    (({ user_id := 0, session_id := "s" } : CreateInput).user_id ≤ 0 ∨
      (pyStrip ({ user_id := 0, session_id := "s" } : CreateInput).session_id).isEmpty = true ∨
      ipMalformed ({ user_id := 0, session_id := "s" } : CreateInput).ip_address = true) ∧
    createSession { user_id := 0, session_id := "s" } 5 emptyStore
      = (Except.error DbError.sessionValidationError, emptyStore, []) :=
  ⟨Or.inl (by decide),
    create_session_validation_no_store_access { user_id := 0, session_id := "s" } 5
      emptyStore (Or.inl (by decide))⟩

/-- Decomposition of a successful `logout_session` call: a validated id,
a non-empty active read whose head `s0` determines the update dict, and an
update that returned at least one row whose head is the returned record. -/
theorem logoutSession_ok {sid : String} {now : Int} {st st1 : Store}
    {r : SessionRecord}
    (h : logoutSession sid now st = (Except.ok r, st1)) :
    ∃ (vsid : String) (s0 : SessionRecord) (rest tl : List SessionRecord),
      validSessionIdField sid = some vsid ∧
      dbRead st { session_id := some vsid, is_active := some true } = s0 :: rest ∧
      (dbUpdate st (logoutUpdateData now s0) { session_id := some vsid }).1 = r :: tl ∧
      st1 = (dbUpdate st (logoutUpdateData now s0) { session_id := some vsid }).2 := by
  unfold logoutSession at h
  cases hv : validSessionIdField sid with
  | none => rw [hv] at h; simp at h
  | some vsid =>
    rw [hv] at h
    dsimp only at h
    cases hr : dbRead st { session_id := some vsid, is_active := some true } with
    | nil => rw [hr] at h; simp at h
    | cons s0 rest =>
      rw [hr] at h
      dsimp only at h
      rcases hu : dbUpdate st (logoutUpdateData now s0) { session_id := some vsid }
        with ⟨ret, st'⟩
      rw [hu] at h
      cases ret with
      | nil => simp at h
      | cons r0 tl =>
        dsimp only at h
        simp only [Prod.mk.injEq, Except.ok.injEq] at h
        obtain ⟨h1, h2⟩ := h
        refine ⟨vsid, s0, rest, tl, rfl, hr, ?_, ?_⟩
        · rw [hu, h1]
        · rw [hu, ← h2]

/-- C6: logout is single-use. After a `logout_session` call succeeds, a
second call with the same `session_id` fails with `SessionNotFoundError`
(the active-record read finds nothing, since the update deactivated every
row with that id) and leaves the store unchanged. -/
theorem logout_session_single_use
    (sid : String) (now1 now2 : Int) (st st1 : Store) (r : SessionRecord)
    (h : logoutSession sid now1 st = (Except.ok r, st1)) :
    logoutSession sid now2 st1 = (Except.error DbError.sessionNotFound, st1) := by
  obtain ⟨vsid, s0, rest, tl, hv, hr, hret, hst1⟩ := logoutSession_ok h
  unfold logoutSession
  rw [hv]
  dsimp only
  have hread : dbRead st1 { session_id := some vsid, is_active := some true } = [] := by
    subst hst1
    simp only [dbRead, dbUpdate]
    refine List.filter_eq_nil_iff.mpr ?_
    intro x hx
    rcases List.mem_map.mp hx with ⟨q, _hq, rfl⟩
    rw [matchesCriteria_sid_active]
    by_cases hqs : matchesCriteria { session_id := some vsid } q = true
    · rw [if_pos hqs]
      simp [applyUpdate, logoutUpdateData]
    · rw [if_neg hqs]
      rw [matchesCriteria_sid] at hqs
      simp [hqs]
  rw [hread]

/-- The row `rAlpha` after being logged out at t = 300 s. -/
def rAlphaOut : SessionRecord :=
  { id := 1, user_id := 1, session_id := "alpha", ip_address := none
    user_agent := none, device_info := none
    login_datetime := some 100000000, logout_datetime := some 300000000
    is_active := false, last_activity := some 300000000
    session_duration := some 200 }

/-- The store `stTwo` after `alpha` has been logged out at t = 300 s. -/
def stTwoOut : Store :=
  { rows := [rAlphaOut, rBeta], nextId := 3 }

/-- C6 witness: a concrete logout followed by a failing second logout. -/
theorem logout_session_single_use_witness :
    logoutSession "alpha" 300000000 stTwo = (Except.ok rAlphaOut, stTwoOut) ∧
    logoutSession "alpha" 400000000 stTwoOut
      = (Except.error DbError.sessionNotFound, stTwoOut) :=
  ⟨by decide,
    logout_session_single_use "alpha" 300000000 400000000 stTwo stTwoOut rAlphaOut
      (by decide)⟩

/-- C9: when `logout_session` succeeds, the returned record carries
`last_activity` overwritten with the logout timestamp (besides
`is_active=false` and `logout_datetime`), the identity counter is untouched,
and row for row the store either is unchanged or — for the rows with the
logged-out `session_id` — changes only `is_active`, `logout_datetime`,
`last_activity` (and `session_duration`): `id`, `user_id`, `session_id`,
`ip_address`, `user_agent`, `device_info` and `login_datetime` are
preserved. -/
theorem logout_session_frame
    (sid : String) (now : Int) (st st1 : Store) (r : SessionRecord)
    (h : logoutSession sid now st = (Except.ok r, st1)) :
    r.last_activity = some now ∧ r.is_active = false ∧
    r.logout_datetime = some now ∧ st1.nextId = st.nextId ∧
    List.Forall₂ (fun old new => new = old ∨
      (new.id = old.id ∧ new.user_id = old.user_id ∧
       new.session_id = old.session_id ∧ new.ip_address = old.ip_address ∧
       new.user_agent = old.user_agent ∧ new.device_info = old.device_info ∧
       new.login_datetime = old.login_datetime ∧ new.is_active = false ∧
       new.logout_datetime = some now ∧ new.last_activity = some now))
      st.rows st1.rows := by
  obtain ⟨vsid, s0, rest, tl, hv, hr, hret, hst1⟩ := logoutSession_ok h
  have hrparts : r.last_activity = some now ∧ r.is_active = false ∧
      r.logout_datetime = some now := by
    simp only [dbUpdate] at hret
    cases hf : st.rows.filter
        (fun q => matchesCriteria { session_id := some vsid } q) with
    | nil => rw [hf] at hret; simp at hret
    | cons q qs =>
      rw [hf] at hret
      simp only [List.map_cons, List.cons.injEq] at hret
      obtain ⟨hq, -⟩ := hret
      rw [← hq]
      simp [applyUpdate, logoutUpdateData]
  refine ⟨hrparts.1, hrparts.2.1, hrparts.2.2, ?_, ?_⟩
  · rw [hst1]
    rfl
  · rw [hst1]
    simp only [dbUpdate]
    rw [List.forall₂_map_right_iff, List.forall₂_same]
    intro q _hq
    by_cases hqs : matchesCriteria { session_id := some vsid } q = true
    · rw [if_pos hqs]
      refine Or.inr ?_
      simp [applyUpdate, logoutUpdateData]
    · rw [if_neg hqs]
      exact Or.inl rfl

/-- The row `rBeta` after being logged out at t = 450 s. -/
def rBetaOut : SessionRecord :=
  { id := 2, user_id := 1, session_id := "beta", ip_address := none
    user_agent := none, device_info := none
    login_datetime := some 200000000, logout_datetime := some 450000000
    is_active := false, last_activity := some 450000000
    session_duration := some 250 }

/-- The store `stTwo` after `beta` has been logged out at t = 450 s. -/
def stTwoOut9 : Store :=
  { rows := [rAlpha, rBetaOut], nextId := 3 }

/-- C9 witness: the frame statement at a concrete logout. -/
theorem logout_session_frame_witness :
    logoutSession "beta" 450000000 stTwo = (Except.ok rBetaOut, stTwoOut9) ∧
    rBetaOut.last_activity = some 450000000 ∧
    List.Forall₂ (fun old new => new = old ∨
      (new.id = old.id ∧ new.user_id = old.user_id ∧
       new.session_id = old.session_id ∧ new.ip_address = old.ip_address ∧
       new.user_agent = old.user_agent ∧ new.device_info = old.device_info ∧
       new.login_datetime = old.login_datetime ∧ new.is_active = false ∧
       new.logout_datetime = some 450000000 ∧
       new.last_activity = some 450000000))
      stTwo.rows stTwoOut9.rows := by
  have hh : logoutSession "beta" 450000000 stTwo = (Except.ok rBetaOut, stTwoOut9) := by
    decide
  have H := logout_session_frame "beta" 450000000 stTwo stTwoOut9 rBetaOut hh
  exact ⟨hh, H.1, H.2.2.2.2⟩

/-- The spec's §3 invariant: no two rows share a `session_id` (enforced by
the duplicate check of `create_session`). -/
def sessionIdsDistinct (st : Store) : Prop :=
  st.rows.Pairwise (fun a b => a.session_id ≠ b.session_id)

theorem filter_sid_singleton {rows : List SessionRecord} {vsid : String}
    (hp : rows.Pairwise (fun a b => a.session_id ≠ b.session_id))
    {a : SessionRecord} (ha : a ∈ rows) (hsid : a.session_id = vsid) :
    rows.filter (fun q => matchesCriteria { session_id := some vsid } q) = [a] := by
  induction rows with
  | nil => cases ha
  | cons b l ih =>
    rw [List.pairwise_cons] at hp
    obtain ⟨hb, hl⟩ := hp
    rcases List.mem_cons.mp ha with heq | ha'
    · subst heq
      rw [List.filter_cons, if_pos (by simp [matchesCriteria_sid, hsid])]
      have hnil : l.filter (fun q => matchesCriteria { session_id := some vsid } q)
          = [] := by
        refine List.filter_eq_nil_iff.mpr ?_
        intro x hx
        rw [matchesCriteria_sid]
        simp only [beq_iff_eq]
        exact fun hc => (hb x hx) (hsid.trans hc.symm)
      rw [hnil]
    · have hbv : matchesCriteria { session_id := some vsid } b = false := by
        rw [matchesCriteria_sid]
        simp only [beq_eq_false_iff_ne, ne_eq]
        exact fun hc => (hb a ha') (hc.trans hsid.symm)
      rw [List.filter_cons, if_neg (by simp [hbv])]
      exact ih hl ha'

/-- C4 counterexample: `create_session` accepts a caller-supplied
`login_datetime` in the future (t = 200 s, while the clock reads t = 100 s);
logging the session out at t = 150 s stores `session_duration = -50`, so the
claimed invariant `session_duration >= 0` fails (the truncated-difference
part of the claim is what the code computes, `-50 = (150 - 200) seconds`). -/
theorem logout_session_duration_negative_cex :
    (createSession { user_id := 1, session_id := "sfuture", login_datetime := some 200000000 }
        100000000 emptyStore).1.isOk = true ∧
    (logoutSession "sfuture" 150000000
        (createSession { user_id := 1, session_id := "sfuture", login_datetime := some 200000000 }
          100000000 emptyStore).2.1).1.map (fun q => q.session_duration)
      = Except.ok (some (-50)) ∧
    ((-50 : Int) < 0) := by
  refine ⟨by decide, by decide, by decide⟩

/-- C4 (amended): on a store whose `session_id`s are distinct (the spec's
own invariant), a successful logout stores
`session_duration = int((logout - login).total_seconds())` — the difference
truncated toward zero to whole seconds — and this value is non-negative
whenever `login_datetime` is not in the future of the logout clock; it can
be negative otherwise, because `create_session` accepts future
`login_datetime` values. -/
theorem logout_session_duration
    (sid : String) (now : Int) (st st1 : Store) (r : SessionRecord) (l : Int)
    (huniq : sessionIdsDistinct st)
    (h : logoutSession sid now st = (Except.ok r, st1))
    (hl : r.login_datetime = some l) :
    r.session_duration = some (pyDurationSeconds (now - l)) ∧
    (l ≤ now → 0 ≤ pyDurationSeconds (now - l)) := by
  obtain ⟨vsid, s0, rest, tl, hv, hr, hret, hst1⟩ := logoutSession_ok h
  unfold dbRead at hr
  have hs0mem : s0 ∈ st.rows.filter (fun q =>
      matchesCriteria { session_id := some vsid, is_active := some true } q) := by
    rw [hr]
    exact List.mem_cons_self _ _
  have hs0 := List.mem_filter.mp hs0mem
  have hsid0 : s0.session_id = vsid := by
    have h2 := hs0.2
    rw [matchesCriteria_sid_active] at h2
    simp only [Bool.and_eq_true, beq_iff_eq] at h2
    exact h2.1
  have hsingle := filter_sid_singleton huniq hs0.1 hsid0
  simp only [dbUpdate, hsingle, List.map_cons, List.map_nil] at hret
  simp only [List.cons.injEq] at hret
  obtain ⟨hrq, -⟩ := hret
  have hrlogin : r.login_datetime = s0.login_datetime := by
    rw [← hrq]
    simp [applyUpdate, logoutUpdateData]
  have hs0login : s0.login_datetime = some l := by rw [← hrlogin, hl]
  constructor
  · rw [← hrq]
    simp [applyUpdate, logoutUpdateData, hs0login]
  · intro hle
    unfold pyDurationSeconds
    exact Int.tdiv_nonneg (by omega) (by norm_num)

/-- C4 witness: the amended statement at a concrete logout (duration 200 s). -/
theorem logout_session_duration_witness :
    sessionIdsDistinct stTwo ∧
    logoutSession "alpha" 300000000 stTwo = (Except.ok rAlphaOut, stTwoOut) ∧
    rAlphaOut.login_datetime = some 100000000 ∧
    rAlphaOut.session_duration
      = some (pyDurationSeconds ((300000000 : Int) - 100000000)) := by
  have hu : sessionIdsDistinct stTwo := by
    simp [sessionIdsDistinct, stTwo, rAlpha, rBeta]
  have hh : logoutSession "alpha" 300000000 stTwo = (Except.ok rAlphaOut, stTwoOut) := by
    decide
  have H := logout_session_duration "alpha" 300000000 stTwo stTwoOut rAlphaOut
    100000000 hu hh (by decide)
  exact ⟨hu, hh, by decide, H.1⟩

/-- C10: `get_sessions_by_user` truncates the user's rows to the first
`limit` in store order (`sessions[:limit]`) before sorting by
`login_datetime` descending, so the result is sorted and has
`min limit count` entries, but need not contain the user's most recent
sessions — witnessed by the concrete store where the user's newest session
`rBeta` is cut off and only the older `rAlpha` is returned. (Rows are
assumed to carry a `login_datetime`, as every row the manager creates does;
on rows with a NULL one the Python sort would raise instead.) -/
theorem get_sessions_by_user_truncates :
    (∀ (uid : Int) (limit : Nat) (st : Store) (out : List SessionRecord),
      (∀ q ∈ st.rows, q.login_datetime.isSome = true) →
      0 < uid →
      getSessionsByUser uid limit st = Except.ok out →
      out = sortByLoginDesc ((dbRead st { user_id := some uid }).take limit) ∧
      List.Sorted loginDescRel out ∧
      out.length = min limit (dbRead st { user_id := some uid }).length) ∧
    (getSessionsByUser 1 1 stTwo = Except.ok [rAlpha] ∧
      rBeta ∈ stTwo.rows ∧ rBeta.user_id = 1 ∧
      loginSortKey rAlpha < loginSortKey rBeta) := by
  constructor
  · intro uid limit st out _hval hpos h
    unfold getSessionsByUser at h
    rw [if_neg (by omega)] at h
    simp only [Except.ok.injEq] at h
    subst h
    refine ⟨rfl, ?_, ?_⟩
    · exact List.sorted_insertionSort loginDescRel _
    · simp [sortByLoginDesc, List.length_insertionSort, List.length_take]
  · exact ⟨by decide, by decide, by decide, by decide⟩

/-- C10 witness: the general statement applied at a concrete store where the
limit does not truncate. -/
theorem get_sessions_by_user_truncates_witness :
    (∀ q ∈ stTwo.rows, q.login_datetime.isSome = true) ∧ (0 : Int) < 1 ∧
    getSessionsByUser 1 2 stTwo = Except.ok [rBeta, rAlpha] ∧
    ([rBeta, rAlpha]
        = sortByLoginDesc ((dbRead stTwo { user_id := some 1 }).take 2) ∧
      List.Sorted loginDescRel [rBeta, rAlpha] ∧
      ([rBeta, rAlpha] : List SessionRecord).length
        = min 2 (dbRead stTwo { user_id := some 1 }).length) :=
  ⟨by decide, by decide, by decide,
    get_sessions_by_user_truncates.1 1 2 stTwo [rBeta, rAlpha] (by decide) (by decide)
      (by decide)⟩

/-- C5 counterexample: `rAlpha` has `login_datetime` exactly equal to the
supplied `login_datetime_to` upper bound, and `search_sessions` returns it —
the bounds are inclusive on both ends (`<` / `>` with `continue` in the
source), not inclusive-exclusive as the claim states. -/
theorem search_sessions_upper_bound_inclusive_cex :
    searchSessions
        { login_datetime_from := some 1, login_datetime_to := some 100000000 }
        stTwo
      = Except.ok [rAlpha] ∧
    rAlpha.login_datetime = some 100000000 := by
  refine ⟨by decide, by decide⟩

/-- Each record kept by `_filter_by_login_datetime` lies within whichever
bounds were supplied, inclusively on both ends (the source skips only
records strictly below the lower or strictly above the upper bound). -/
theorem mem_filterByLoginDatetime {l : List SessionRecord}
    {fromDt toDt : Option Int} {q : SessionRecord}
    (hq : q ∈ filterByLoginDatetime l fromDt toDt) :
    q ∈ l ∧ (∀ f, fromDt = some f → ∃ d, q.login_datetime = some d ∧ f ≤ d) ∧
      (∀ t, toDt = some t → ∃ d, q.login_datetime = some d ∧ d ≤ t) := by
  unfold filterByLoginDatetime at hq
  split at hq
  · rename_i hcond
    simp only [Bool.and_eq_true, Option.isNone_iff_eq_none] at hcond
    refine ⟨hq, ?_, ?_⟩
    · intro f hf
      rw [hcond.1] at hf
      simp at hf
    · intro t ht
      rw [hcond.2] at ht
      simp at ht
  · rw [List.mem_filter] at hq
    obtain ⟨hql, hpred⟩ := hq
    cases hlq : q.login_datetime with
    | none => rw [hlq] at hpred; simp at hpred
    | some d =>
      rw [hlq] at hpred
      dsimp only at hpred
      rw [Bool.and_eq_true] at hpred
      obtain ⟨h1, h2⟩ := hpred
      refine ⟨hql, ?_, ?_⟩
      · intro f hf
        rw [hf] at h1
        dsimp only at h1
        rw [Bool.not_eq_true', decide_eq_false_iff_not] at h1
        exact ⟨d, rfl, by omega⟩
      · intro t ht
        rw [ht] at h2
        dsimp only at h2
        rw [Bool.not_eq_true', decide_eq_false_iff_not] at h2
        exact ⟨d, rfl, by omega⟩

/-- Each record kept by `_filter_by_last_activity` lies within whichever
bounds were supplied, inclusively on both ends. -/
theorem mem_filterByLastActivity {l : List SessionRecord}
    {fromDt toDt : Option Int} {q : SessionRecord}
    (hq : q ∈ filterByLastActivity l fromDt toDt) :
    q ∈ l ∧ (∀ f, fromDt = some f → ∃ a, q.last_activity = some a ∧ f ≤ a) ∧
      (∀ t, toDt = some t → ∃ a, q.last_activity = some a ∧ a ≤ t) := by
  unfold filterByLastActivity at hq
  split at hq
  · rename_i hcond
    simp only [Bool.and_eq_true, Option.isNone_iff_eq_none] at hcond
    refine ⟨hq, ?_, ?_⟩
    · intro f hf
      rw [hcond.1] at hf
      simp at hf
    · intro t ht
      rw [hcond.2] at ht
      simp at ht
  · rw [List.mem_filter] at hq
    obtain ⟨hql, hpred⟩ := hq
    cases hlq : q.last_activity with
    | none => rw [hlq] at hpred; simp at hpred
    | some a =>
      rw [hlq] at hpred
      dsimp only at hpred
      rw [Bool.and_eq_true] at hpred
      obtain ⟨h1, h2⟩ := hpred
      refine ⟨hql, ?_, ?_⟩
      · intro f hf
        rw [hf] at h1
        dsimp only at h1
        rw [Bool.not_eq_true', decide_eq_false_iff_not] at h1
        exact ⟨a, rfl, by omega⟩
      · intro t ht
        rw [ht] at h2
        dsimp only at h2
        rw [Bool.not_eq_true', decide_eq_false_iff_not] at h2
        exact ⟨a, rfl, by omega⟩

/-- Each record surviving the SELECT and both conditional range filters is a
stored row and lies inclusively within every range bound the search
supplied — whether login, activity, both, or only one side of either. -/
theorem mem_searchFilteredRows {v : SearchInput} {st : Store} {q : SessionRecord}
    (hq : q ∈ searchFilteredRows v st) :
    q ∈ st.rows ∧
    (∀ f, v.login_datetime_from = some f → ∃ d, q.login_datetime = some d ∧ f ≤ d) ∧
    (∀ t, v.login_datetime_to = some t → ∃ d, q.login_datetime = some d ∧ d ≤ t) ∧
    (∀ f, v.last_activity_from = some f → ∃ a, q.last_activity = some a ∧ f ≤ a) ∧
    (∀ t, v.last_activity_to = some t → ∃ a, q.last_activity = some a ∧ a ≤ t) := by
  have hbase : ∀ r ∈ dbRead st (searchCriteria v), r ∈ st.rows := by
    intro r hr
    unfold dbRead at hr
    exact (List.mem_filter.mp hr).1
  simp only [searchFilteredRows] at hq
  split at hq
  · obtain ⟨hq1, haf, hat⟩ := mem_filterByLastActivity hq
    split at hq1
    · obtain ⟨hq0, hlf, hlt⟩ := mem_filterByLoginDatetime hq1
      exact ⟨hbase q hq0, hlf, hlt, haf, hat⟩
    · rename_i hc1
      refine ⟨hbase q hq1, ?_, ?_, haf, hat⟩
      · intro f hf
        rw [hf] at hc1
        simp at hc1
      · intro t ht
        rw [ht] at hc1
        simp at hc1
  · rename_i hc2
    have hvac : (∀ f, v.last_activity_from = some f →
        ∃ a, q.last_activity = some a ∧ f ≤ a) ∧
        (∀ t, v.last_activity_to = some t →
        ∃ a, q.last_activity = some a ∧ a ≤ t) := by
      constructor
      · intro f hf
        rw [hf] at hc2
        simp at hc2
      · intro t ht
        rw [ht] at hc2
        simp at hc2
    split at hq
    · obtain ⟨hq0, hlf, hlt⟩ := mem_filterByLoginDatetime hq
      exact ⟨hbase q hq0, hlf, hlt, hvac.1, hvac.2⟩
    · rename_i hc1
      refine ⟨hbase q hq, ?_, ?_, hvac.1, hvac.2⟩
      · intro f hf
        rw [hf] at hc1
        simp at hc1
      · intro t ht
        rw [ht] at hc1
        simp at hc1

/-- Validation leaves every field of a search input unchanged except the
normalized `session_id` and `ip_address`. -/
theorem validateSessionSearch_preserves {inp v : SearchInput}
    (hv : validateSessionSearch inp = some v) :
    v.user_id = inp.user_id ∧ v.is_active = inp.is_active ∧
    v.login_datetime_from = inp.login_datetime_from ∧
    v.login_datetime_to = inp.login_datetime_to ∧
    v.last_activity_from = inp.last_activity_from ∧
    v.last_activity_to = inp.last_activity_to ∧
    v.limit = inp.limit ∧ v.offset = inp.offset := by
  simp only [validateSessionSearch] at hv
  split at hv
  · simp at hv
  · cases hsid : validSearchSessionId inp.session_id with
    | none => rw [hsid] at hv; simp at hv
    | some sid =>
      rw [hsid] at hv
      cases hip : validIpField inp.ip_address with
      | none => rw [hip] at hv; simp at hv
      | some ip =>
        rw [hip] at hv
        dsimp only at hv
        split at hv
        · simp at hv
        · split at hv
          · simp at hv
          · split at hv
            · simp at hv
            · injection hv with hv
              subst hv
              exact ⟨rfl, rfl, rfl, rfl, rfl, rfl, rfl, rfl⟩

/-- C5 (amended): for every search the code accepts, whatever combination
of equality filters and range bounds it supplies, the supplied
`login_datetime` and `last_activity` range bounds are applied *inclusively*
on both ends (a record equal to a bound is kept — only records strictly
outside a supplied bound are dropped, also when only one side of a range is
given); the result is sorted by `login_datetime` descending; and it is
exactly the `offset`/`limit` page taken after filtering and sorting. Rows
are assumed to carry a `login_datetime`; on rows with a NULL one the Python
sort would raise instead. -/
theorem search_sessions_range_sorted_paginated
    (inp : SearchInput) (st : Store) (out : List SessionRecord)
    (_hval : ∀ q ∈ st.rows, q.login_datetime.isSome = true)
    (h : searchSessions inp st = Except.ok out) :
    List.Sorted loginDescRel out ∧
    (∀ q ∈ out, q ∈ st.rows ∧
      (∀ f, inp.login_datetime_from = some f →
        ∃ d, q.login_datetime = some d ∧ f ≤ d) ∧
      (∀ t, inp.login_datetime_to = some t →
        ∃ d, q.login_datetime = some d ∧ d ≤ t) ∧
      (∀ f, inp.last_activity_from = some f →
        ∃ a, q.last_activity = some a ∧ f ≤ a) ∧
      (∀ t, inp.last_activity_to = some t →
        ∃ a, q.last_activity = some a ∧ a ≤ t)) ∧
    (∃ v, validateSessionSearch inp = some v ∧
      out = ((sortByLoginDesc (searchFilteredRows v st)).drop
        (inp.offset.getD 0)).take (inp.limit.getD 100)) := by
  unfold searchSessions at h
  cases hv : validateSessionSearch inp with
  | none => rw [hv] at h; simp at h
  | some v =>
    rw [hv] at h
    dsimp only at h
    simp only [Except.ok.injEq] at h
    subst h
    obtain ⟨-, -, hplf, hplt, hpaf, hpat, hplim, hpoff⟩ :=
      validateSessionSearch_preserves hv
    refine ⟨?_, ?_, ?_⟩
    · exact List.Pairwise.sublist
        ((List.take_sublist _ _).trans (List.drop_sublist _ _))
        (List.sorted_insertionSort loginDescRel _)
    · intro q hq
      have hq1 : q ∈ sortByLoginDesc (searchFilteredRows v st) :=
        List.mem_of_mem_drop (List.mem_of_mem_take hq)
      rw [sortByLoginDesc] at hq1
      have hq2 := (List.perm_insertionSort loginDescRel _).mem_iff.mp hq1
      obtain ⟨hrows, hlf, hlt, haf, hat⟩ := mem_searchFilteredRows hq2
      refine ⟨hrows, ?_, ?_, ?_, ?_⟩
      · intro f hf
        exact hlf f (hplf.trans hf)
      · intro t ht
        exact hlt t (hplt.trans ht)
      · intro f hf
        exact haf f (hpaf.trans hf)
      · intro t ht
        exact hat t (hpat.trans ht)
    · refine ⟨v, rfl, ?_⟩
      rw [← hplim, ← hpoff]

/-- C5 witness: the amended statement at a concrete search over `stTwo`
supplying equality filters and all four range bounds; `rAlpha` lies within
them (its `login_datetime` equals neither bound but its `last_activity`
equals the upper activity bound) while `rBeta` is cut off. -/
theorem search_sessions_range_sorted_paginated_witness :
    (∀ q ∈ stTwo.rows, q.login_datetime.isSome = true) ∧
    searchSessions
        { user_id := some 1, is_active := some true,
          login_datetime_from := some 1, login_datetime_to := some 150000000,
          last_activity_from := some 1, last_activity_to := some 100000000 }
        stTwo = Except.ok [rAlpha] ∧
    List.Sorted loginDescRel [rAlpha] ∧
    (∀ q ∈ ([rAlpha] : List SessionRecord), q ∈ stTwo.rows ∧
      (∀ f, (some (1 : Int)) = some f → ∃ d, q.login_datetime = some d ∧ f ≤ d) ∧
      (∀ t, (some (150000000 : Int)) = some t →
        ∃ d, q.login_datetime = some d ∧ d ≤ t) ∧
      (∀ f, (some (1 : Int)) = some f → ∃ a, q.last_activity = some a ∧ f ≤ a) ∧
      (∀ t, (some (100000000 : Int)) = some t →
        ∃ a, q.last_activity = some a ∧ a ≤ t)) := by
  have hval : ∀ q ∈ stTwo.rows, q.login_datetime.isSome = true := by decide
  have hh : searchSessions
      { user_id := some 1, is_active := some true,
        login_datetime_from := some 1, login_datetime_to := some 150000000,
        last_activity_from := some 1, last_activity_to := some 100000000 }
      stTwo = Except.ok [rAlpha] := by decide
  have H := search_sessions_range_sorted_paginated
    { user_id := some 1, is_active := some true,
      login_datetime_from := some 1, login_datetime_to := some 150000000,
      last_activity_from := some 1, last_activity_to := some 100000000 }
    stTwo [rAlpha] hval hh
  exact ⟨hval, hh, H.1, H.2.1⟩

end TigerETL
